import Mathlib

/-!
Verification of the registration shim in `src/pdp-init.c` of the `pdp`
package.  The file declares one native routine (`PartialGBM`), builds a
`.Call` registration table `CallEntries` terminated by a `{NULL, NULL, 0}`
sentinel, and defines the loader hook `R_init_pdp`, which calls
`R_registerRoutines(dll, NULL, CallEntries, NULL, NULL)` and then
`R_useDynamicSymbols(dll, FALSE)`.

We shallowly embed this: C function pointers become an inductive `DL_FUNC`,
the table rows become a structure mirroring `R_CallMethodDef`, the host's
per-module registration state becomes `HostState`, and the two R API calls
become state transformers that also emit an explicit trace of side effects
(`HostEffect`), so that "exactly these side effects, in this order" is a
statement about the emitted trace.
-/

/-- The opaque module handle R passes to the loader hook (`DllInfo *dll`). -/
structure DllInfo where
  handle : Nat
deriving DecidableEq, Repr

/-- A native callable reference (C `DL_FUNC`).  The shim only ever takes the
address of `PartialGBM`; `dynsym a` stands for an arbitrary address that a
dynamic symbol search in the loaded module could produce. -/
inductive DL_FUNC where
  | PartialGBM : DL_FUNC
  | dynsym (addr : Nat) : DL_FUNC
deriving DecidableEq, Repr

/-- The C type of values exchanged with the host (`SEXP`); opaque here. -/
inductive CType where
  | SEXP : CType
deriving DecidableEq, Repr

/-- Parameter list of the forward declaration
`SEXP PartialGBM(SEXP, SEXP, SEXP, SEXP, SEXP, SEXP, SEXP, SEXP, SEXP, SEXP);`
(line 11 of `pdp-init.c`): ten `SEXP` parameters. -/
def PartialGBM_decl_params : List CType :=
  [CType.SEXP, CType.SEXP, CType.SEXP, CType.SEXP, CType.SEXP,
   CType.SEXP, CType.SEXP, CType.SEXP, CType.SEXP, CType.SEXP]

/-- Return type of the `PartialGBM` forward declaration. -/
def PartialGBM_decl_ret : CType := CType.SEXP

/-- One row of the `.Call` registration table (C `R_CallMethodDef`):
`{const char *name; DL_FUNC fun; int numArgs;}`.  A C `NULL` pointer in the
`name` or `fun` field is `none`. -/
structure R_CallMethodDef where
  name : Option String
  fn : Option DL_FUNC
  numArgs : Nat
deriving DecidableEq, Repr

/-- One row of a `.C` registration table (C `R_CMethodDef`); the shim only
ever passes `NULL` for such tables. -/
structure R_CMethodDef where
  name : Option String
  fn : Option DL_FUNC
  numArgs : Nat
deriving DecidableEq, Repr

/-- One row of a `.Fortran` registration table (C `R_FortranMethodDef`);
the shim only ever passes `NULL` for such tables. -/
structure R_FortranMethodDef where
  name : Option String
  fn : Option DL_FUNC
  numArgs : Nat
deriving DecidableEq, Repr

/-- One row of an `.External` registration table (C `R_ExternalMethodDef`);
the shim only ever passes `NULL` for such tables. -/
structure R_ExtMethodDef where
  name : Option String
  fn : Option DL_FUNC
  numArgs : Nat
deriving DecidableEq, Repr

/-- The sentinel row `{NULL, NULL, 0}` terminating the table. -/
def nullEntry : R_CallMethodDef := ⟨none, none, 0⟩

/-- The registration table, lines 13-16 of `pdp-init.c`:
`static const R_CallMethodDef CallEntries[] =
  \x7b \x7b"PartialGBM", (DL_FUNC) &PartialGBM, 10\x7d, \x7bNULL, NULL, 0\x7d \x7d;` -/
def CallEntries : List R_CallMethodDef :=
  [⟨some "PartialGBM", some DL_FUNC.PartialGBM, 10⟩, nullEntry]

/-- The rows the host actually registers: R reads the array up to the first
row whose `name` is `NULL`. -/
def registeredEntries (es : List R_CallMethodDef) : List R_CallMethodDef :=
  es.takeWhile (fun e => e.name.isSome)

/-- The host's per-module registration state: the four routine tables a
module may install (only the `.Call` one matters to this shim; the other
three are kept to state what the shim does NOT register), the
dynamic-symbol-lookup flag set by `R_useDynamicSymbols`, and the host's
dynamic symbol resolver, used only when that flag is on. -/
structure HostState where
  cTable : Option (List R_CMethodDef)
  callTable : Option (List R_CallMethodDef)
  fortranTable : Option (List R_FortranMethodDef)
  extTable : Option (List R_ExtMethodDef)
  dynamicSymbols : Bool
  dynResolve : String → Option DL_FUNC

/-- The observable side effects the shim can perform on the host. -/
inductive HostEffect where
  | registerRoutines (dll : DllInfo) (cR : Option (List R_CMethodDef))
      (callR : Option (List R_CallMethodDef))
      (fortranR : Option (List R_FortranMethodDef))
      (extR : Option (List R_ExtMethodDef)) : HostEffect
  | useDynamicSymbols (dll : DllInfo) (value : Bool) : HostEffect

/-- Model of the R API call `R_registerRoutines(dll, c, call, fortran, ext)`:
installs the four tables for this module and emits the corresponding
effect. -/
def R_registerRoutines (dll : DllInfo) (cR : Option (List R_CMethodDef))
    (callR : Option (List R_CallMethodDef))
    (fortranR : Option (List R_FortranMethodDef))
    (extR : Option (List R_ExtMethodDef)) (s : HostState) :
    HostState × List HostEffect :=
  ({ s with cTable := cR, callTable := callR,
            fortranTable := fortranR, extTable := extR },
   [HostEffect.registerRoutines dll cR callR fortranR extR])

/-- Model of the R API call `R_useDynamicSymbols(dll, b)`: sets the
module's dynamic-symbol-lookup flag and emits the corresponding effect. -/
def R_useDynamicSymbols (dll : DllInfo) (b : Bool) (s : HostState) :
    HostState × List HostEffect :=
  ({ s with dynamicSymbols := b },
   [HostEffect.useDynamicSymbols dll b])

/-- Result of running the loader hook: the (void) C return value, the host
state afterwards, and the trace of side effects performed, in order. -/
structure InitResult where
  ret : Unit
  state : HostState
  trace : List HostEffect

/-- The loader hook, lines 18-22 of `pdp-init.c`:
`void R_init_pdp(DllInfo *dll) \x7b
   R_registerRoutines(dll, NULL, CallEntries, NULL, NULL);
   R_useDynamicSymbols(dll, FALSE);
\x7d` -/
def R_init_pdp (dll : DllInfo) (s : HostState) : InitResult :=
  let r1 := R_registerRoutines dll none (some CallEntries) none none s
  let r2 := R_useDynamicSymbols dll false r1.1
  { ret := (), state := r2.1, trace := r1.2 ++ r2.2 }

/-- Look a name up in a module's registered `.Call` table (rows before the
sentinel only). -/
def lookupRegistered (tbl : Option (List R_CallMethodDef)) (nm : String) :
    Option DL_FUNC :=
  match tbl with
  | none => none
  | some es =>
    match (registeredEntries es).find? (fun e => e.name == some nm) with
    | some e => e.fn
    | none => none

/-- The host's `.Call` dispatch path: consult the registered table first;
on a miss, fall back to dynamic symbol search only if the module's
dynamic-symbol flag is on, otherwise fail cleanly with `none`. -/
def dotCallDispatch (s : HostState) (nm : String) : Option DL_FUNC :=
  match lookupRegistered s.callTable nm with
  | some f => some f
  | none => if s.dynamicSymbols then s.dynResolve nm else none

/-- Look a name up in a module's registered `.C` table. -/
def lookupCRegistered (tbl : Option (List R_CMethodDef)) (nm : String) :
    Option DL_FUNC :=
  match tbl with
  | none => none
  | some es =>
    match (es.takeWhile (fun e => e.name.isSome)).find?
        (fun e => e.name == some nm) with
    | some e => e.fn
    | none => none

/-- The host's `.C` dispatch path for this module. -/
def dotCDispatch (s : HostState) (nm : String) : Option DL_FUNC :=
  match lookupCRegistered s.cTable nm with
  | some f => some f
  | none => if s.dynamicSymbols then s.dynResolve nm else none

/-- Look a name up in a module's registered `.Fortran` table. -/
def lookupFortranRegistered (tbl : Option (List R_FortranMethodDef))
    (nm : String) : Option DL_FUNC :=
  match tbl with
  | none => none
  | some es =>
    match (es.takeWhile (fun e => e.name.isSome)).find?
        (fun e => e.name == some nm) with
    | some e => e.fn
    | none => none

/-- The host's `.Fortran` dispatch path for this module. -/
def dotFortranDispatch (s : HostState) (nm : String) : Option DL_FUNC :=
  match lookupFortranRegistered s.fortranTable nm with
  | some f => some f
  | none => if s.dynamicSymbols then s.dynResolve nm else none

/-- Look a name up in a module's registered `.External` table. -/
def lookupExtRegistered (tbl : Option (List R_ExtMethodDef)) (nm : String) :
    Option DL_FUNC :=
  match tbl with
  | none => none
  | some es =>
    match (es.takeWhile (fun e => e.name.isSome)).find?
        (fun e => e.name == some nm) with
    | some e => e.fn
    | none => none

/-- The host's `.External` dispatch path for this module. -/
def dotExtDispatch (s : HostState) (nm : String) : Option DL_FUNC :=
  match lookupExtRegistered s.extTable nm with
  | some f => some f
  | none => if s.dynamicSymbols then s.dynResolve nm else none

/-- An operation performed on the module after it is loaded: re-invocation
of the loader hook, or a (read-only) dispatch lookup. -/
inductive ModuleOp where
  | reinit (dll : DllInfo) : ModuleOp
  | callLookup (nm : String) : ModuleOp

/-- Apply one module operation to the host state. -/
def applyOp (s : HostState) : ModuleOp → HostState
  | ModuleOp.reinit dll => (R_init_pdp dll s).state
  | ModuleOp.callLookup _ => s

/-- Apply a sequence of module operations to the host state. -/
def runOps (s : HostState) (ops : List ModuleOp) : HostState :=
  ops.foldl applyOp s

/- ------------------------------------------------------------------ -/
/- Theorems                                                           -/
/- ------------------------------------------------------------------ -/

/-- Claim C1: the exported routine surface consists of exactly one entry:
the registration table registers the single name "PartialGBM" with declared
arity exactly 10, and no other routine name is registered. -/
theorem exported_surface_single_entry :
    (registeredEntries CallEntries).map (fun e => (e.name, e.numArgs)) =
      [(some "PartialGBM", 10)] := by
  rfl

/-- Claim C2: the arity registered in the table for the single declared
routine (10) equals the parameter count of the `PartialGBM` forward
declaration. -/
theorem registered_arity_matches_decl :
    (registeredEntries CallEntries).map (fun e => e.numArgs) =
      [PartialGBM_decl_params.length] := by
  rfl

/-- Claim C3: given the module handle, `R_init_pdp` performs exactly two
side effects, in this order: first it installs the registration table
(`R_registerRoutines` with `CallEntries` in the `.Call` slot), then it
disables the host's fallback symbol lookup (`R_useDynamicSymbols` with
`FALSE`); its trace contains no other effect. -/
theorem init_trace_exactly_two_effects (dll : DllInfo) (s : HostState) :
    (R_init_pdp dll s).trace =
      [HostEffect.registerRoutines dll none (some CallEntries) none none,
       HostEffect.useDynamicSymbols dll false] := by
  rfl

/-- Claim C4: after the loader hook has run, a `.Call` dispatch lookup for
any name not in the registration table fails cleanly with `none` instead of
resolving through the dynamic symbol search path, because that fallback is
disabled. -/
theorem unregistered_lookup_fails (s : HostState) (dll : DllInfo)
    (nm : String) (h : nm ≠ "PartialGBM") :
    dotCallDispatch (R_init_pdp dll s).state nm = none := by
  have hne : ((some "PartialGBM" : Option String) == some nm) = false := by
    simp only [beq_eq_false_iff_ne, ne_eq, Option.some.injEq]
    exact fun hh => h hh.symm
  simp [dotCallDispatch, R_init_pdp, R_registerRoutines, R_useDynamicSymbols,
    lookupRegistered, registeredEntries, CallEntries, nullEntry, hne]

/-- Witness for C4 at a concrete unregistered name and a concrete host
state whose dynamic resolver would otherwise resolve every name. -/
theorem unregistered_lookup_fails_witness :
    "predict" ≠ "PartialGBM" ∧
    dotCallDispatch
      (R_init_pdp ⟨0⟩
        ⟨none, none, none, none, true,
         fun _ => some (DL_FUNC.dynsym 7)⟩).state "predict" = none :=
  ⟨by decide,
   unregistered_lookup_fails
     ⟨none, none, none, none, true, fun _ => some (DL_FUNC.dynsym 7)⟩
     ⟨0⟩ "predict" (by decide)⟩

/-- Claim C5: the registration table is immutable after construction: after
the loader hook installs `CallEntries`, any further sequence of module
operations (lookups and re-invocations of the hook, in any number) leaves
the installed table contents unchanged, equal to `CallEntries`. -/
theorem call_table_immutable (s : HostState) (dll : DllInfo)
    (ops : List ModuleOp) :
    (runOps (R_init_pdp dll s).state ops).callTable = some CallEntries := by
  suffices hgen : ∀ (os : List ModuleOp) (t : HostState),
      t.callTable = some CallEntries →
      (runOps t os).callTable = some CallEntries from
    hgen ops _ rfl
  intro os
  induction os with
  | nil => intro t ht; exact ht
  | cons op rest ih =>
    intro t ht
    cases op with
    | reinit dll2 => exact ih _ rfl
    | callLookup nm => exact ih _ ht

/-- Witness for C5 at concrete inputs: a fresh host state, handle 1, and an
operation sequence containing a lookup and a re-initialization. -/
theorem call_table_immutable_witness :
    (runOps
      (R_init_pdp ⟨1⟩ ⟨none, none, none, none, true, fun _ => none⟩).state
      [ModuleOp.callLookup "PartialGBM", ModuleOp.reinit ⟨2⟩]).callTable =
      some CallEntries :=
  call_table_immutable ⟨none, none, none, none, true, fun _ => none⟩ ⟨1⟩
    [ModuleOp.callLookup "PartialGBM", ModuleOp.reinit ⟨2⟩]

/-- Claim C6: the routine table is an ordered sequence terminated by the
`{NULL, NULL, 0}` sentinel: it decomposes as the registered rows (all with
non-`NULL` names) followed by the sentinel, and the registered names are
pairwise distinct. -/
theorem table_sentinel_and_unique_names :
    CallEntries = registeredEntries CallEntries ++ [nullEntry] ∧
    (∀ e ∈ registeredEntries CallEntries, e.name.isSome) ∧
    ((registeredEntries CallEntries).filterMap (fun e => e.name)).Nodup := by
  refine ⟨rfl, ?_, ?_⟩
  · intro e he
    simp only [registeredEntries, CallEntries, nullEntry, List.takeWhile,
      Option.isSome_some, Option.isSome_none, List.mem_singleton] at he ⊢
    rw [he]
    rfl
  · simp [registeredEntries, CallEntries, nullEntry, List.takeWhile]

/-- Claim C7: calling the loader hook a second time on an already
initialized module is a defined no-op: the host state (and in particular
the installed table) after re-invocation equals the state after the first
invocation. -/
theorem reinit_is_noop (s : HostState) (dll dll2 : DllInfo) :
    (R_init_pdp dll2 (R_init_pdp dll s).state).state =
      (R_init_pdp dll s).state := by
  rfl

/-- Claim C8: after the module is loaded, every `.Call` dispatch lookup of
the name "PartialGBM" resolves to the same callable reference, the address
of `PartialGBM`: any two such lookups yield equal function pointers. -/
theorem lookup_deterministic :
    (∀ (s : HostState) (dll : DllInfo),
      dotCallDispatch (R_init_pdp dll s).state "PartialGBM" =
        some DL_FUNC.PartialGBM) ∧
    (∀ (s₁ s₂ : HostState) (dll₁ dll₂ : DllInfo),
      dotCallDispatch (R_init_pdp dll₁ s₁).state "PartialGBM" =
        dotCallDispatch (R_init_pdp dll₂ s₂).state "PartialGBM") := by
  constructor
  · intro s dll; rfl
  · intro s₁ s₂ dll₁ dll₂; rfl

/-- Claim C9: `R_init_pdp` is `void`: its C return value is the unique
value of `Unit`, so no failure information is observable through its
result — the results of any two invocations are indistinguishable. -/
theorem init_returns_void :
    (∀ (dll : DllInfo) (s : HostState), (R_init_pdp dll s).ret = ()) ∧
    (∀ (dll₁ dll₂ : DllInfo) (s₁ s₂ : HostState),
      (R_init_pdp dll₁ s₁).ret = (R_init_pdp dll₂ s₂).ret) := by
  exact ⟨fun _ _ => rfl, fun _ _ _ _ => rfl⟩

/-- Claim C10: the registration call passes `NULL` for the `.C`,
`.Fortran`, and `.External` routine slots, so after loading no routine is
reachable through any of those three dispatch interfaces, whatever the
name. -/
theorem only_call_interface_registered (s : HostState) (dll : DllInfo)
    (nm : String) :
    (R_init_pdp dll s).state.cTable = none ∧
    (R_init_pdp dll s).state.fortranTable = none ∧
    (R_init_pdp dll s).state.extTable = none ∧
    dotCDispatch (R_init_pdp dll s).state nm = none ∧
    dotFortranDispatch (R_init_pdp dll s).state nm = none ∧
    dotExtDispatch (R_init_pdp dll s).state nm = none := by
  exact ⟨rfl, rfl, rfl, rfl, rfl, rfl⟩
